import Mathlib

/-!
# Verification of the TAP virtual network-interface driver

Shallow embedding of `src/drivers/net/tap/rte_eth_tap.c` (a DPDK TAP poll-mode
driver) and proofs about its burst I/O engines, queue/descriptor lifecycle and
statistics operations.

Modelling conventions:
* C `uint64_t` / `unsigned long` counters are modelled as `Nat`; no claim here
  depends on 64-bit wraparound, which is unreachable from 16-bit per-call
  increments in any feasible execution.
* File descriptors are `Int` so that the `-1` "unassigned" sentinel of the C
  code is represented literally.
* Kernel interactions (`poll`, `write`, `read`, `open`, mbuf-pool allocation)
  are environments: functions from the index of the call to its result, so a
  run of an engine is a pure function of the environment.
-/

/-- `RTE_PMD_TAP_MAX_QUEUES` from the source: compile-time queue maximum. -/
def RTE_PMD_TAP_MAX_QUEUES : Nat := 16

/-- Modelled from the spec: `RTE_ETHDEV_QUEUE_STAT_CNTRS`, the exposed
stats-array capacity of the device framework (`rte_ethdev` configuration
default, not part of `src/`); the spec calls it "the exposed stats-array
capacity". Its exact value is irrelevant to the claims. -/
def RTE_ETHDEV_QUEUE_STAT_CNTRS : Nat := 16

/-- `struct pkt_stats` of the source: per-queue packet counters. -/
structure PktStats where
  opackets : Nat
  ipackets : Nat
  obytes : Nat
  ibytes : Nat
  errs : Nat
deriving Repr, DecidableEq

/-- All-zero counters (`rte_zmalloc` zero-fills the internals). -/
def PktStats.zero : PktStats := ⟨0, 0, 0, 0, 0⟩

/-- A transmit-side mbuf: only `pkt_len` (`rte_pktmbuf_pkt_len`) is read by
`pmd_tx_burst`. -/
structure Mbuf where
  pkt_len : Nat
deriving Repr, DecidableEq

/-- Kernel-call environment for one `pmd_tx_burst` run: `poll k` is the result
of the `k`-th `poll(&pfd, 1, 0)` call, as the pair of its return value and
whether `POLLOUT` is set in `revents`; `write k` is the return value of the
`k`-th `write` call. -/
structure TxEnv where
  poll : Nat → Int × Bool
  write : Nat → Int

/-- Mutable state of the `pmd_tx_burst` loop, plus instrumentation: `freed`
lists the indices of the mbufs passed to `rte_pktmbuf_free`, in order, and
`polls` / `writes` count the kernel calls issued. -/
structure TxState where
  numTx : Nat
  numTxBytes : Nat
  freed : List Nat
  polls : Nat
  writes : Nat
deriving Repr, DecidableEq

/-- The `for (i = 0; i < nb_pkts; i++)` loop of `pmd_tx_burst`.  Each
iteration polls once; `n <= 0` breaks; if `POLLOUT` is absent the iteration
falls through (no write, no break); otherwise one `write` of
`bufs[num_tx]` is issued, a non-positive result breaks, and a positive result
sends the frame: `num_tx++`, bytes accumulate `mbuf->pkt_len`, the mbuf is
freed. `fuel` is the remaining iteration count `nb_pkts - i`. -/
def txLoop (env : TxEnv) (bufs : List Mbuf) : Nat → Nat → TxState → TxState
  | _, 0, s => s
  | i, fuel + 1, s =>
    if (env.poll i).1 ≤ 0 then { s with polls := s.polls + 1 }
    else if (env.poll i).2 then
      if env.write s.numTx ≤ 0 then
        { s with polls := s.polls + 1, writes := s.writes + 1 }
      else
        txLoop env bufs (i + 1) fuel
          { s with
            polls := s.polls + 1
            writes := s.writes + 1
            numTx := s.numTx + 1
            numTxBytes := s.numTxBytes + (bufs.getD s.numTx ⟨0⟩).pkt_len
            freed := s.freed ++ [s.numTx] }
    else txLoop env bufs (i + 1) fuel { s with polls := s.polls + 1 }

/-- Result of one `pmd_tx_burst` call: the updated TX-queue counters, the
return value `num_tx`, and the instrumentation of the run. -/
structure TxResult where
  stats : PktStats
  sent : Nat
  freed : List Nat
  polls : Nat
  writes : Nat
deriving Repr, DecidableEq

/-- `pmd_tx_burst` of the source: early return 0 on an empty batch with no
kernel calls; otherwise run the loop over the batch, then update the queue
counters: `opackets += num_tx`, `errs += nb_pkts - num_tx`,
`obytes += num_tx_bytes`. -/
def pmd_tx_burst (env : TxEnv) (stats : PktStats) (bufs : List Mbuf) : TxResult :=
  if bufs.length = 0 then ⟨stats, 0, [], 0, 0⟩
  else
    let s := txLoop env bufs 0 bufs.length ⟨0, 0, [], 0, 0⟩
    ⟨{ stats with
        opackets := stats.opackets + s.numTx
        errs := stats.errs + (bufs.length - s.numTx)
        obytes := stats.obytes + s.numTxBytes },
      s.numTx, s.freed, s.polls, s.writes⟩

/-- A receive-side frame as `pmd_rx_burst` builds it: `data_len` and
`pkt_len` are set to the bytes read, `port` to the queue's `in_port`. -/
structure Frame where
  data_len : Nat
  pkt_len : Nat
  port : Nat
deriving Repr, DecidableEq

/-- Environment for one `pmd_rx_burst` run: `alloc k` is the result of the
`k`-th `rte_pktmbuf_alloc` call (`none` = pool exhausted, `some t` = an mbuf
with tailroom `t`); `read k` is the return value of the `k`-th `read`. -/
structure RxEnv where
  alloc : Nat → Option Nat
  read : Nat → Int

/-- Mutable state of the `pmd_rx_burst` loop: accumulated output frames (the
`bufs` array), the counters `num_rx` / `num_rx_bytes`, and the number of
mbufs allocated then freed on a failed read. -/
structure RxState where
  frames : List Frame
  numRx : Nat
  numRxBytes : Nat
  freedBufs : Nat
deriving Repr, DecidableEq

/-- The `for (num_rx = 0; num_rx < nb_pkts; )` loop of `pmd_rx_burst`: each
iteration allocates one mbuf (failure breaks), issues one `read` (a
non-positive result frees the mbuf and breaks), otherwise fills the frame and
accumulates it. Iteration `k` performs the `k`-th alloc and the `k`-th read. -/
def rxLoop (env : RxEnv) (port : Nat) : Nat → Nat → RxState → RxState
  | _, 0, s => s
  | k, fuel + 1, s =>
    match env.alloc k with
    | none => s
    | some _tailroom =>
      if env.read k ≤ 0 then { s with freedBufs := s.freedBufs + 1 }
      else
        rxLoop env port (k + 1) fuel
          { s with
            frames := s.frames ++ [⟨(env.read k).toNat, (env.read k).toNat, port⟩]
            numRx := s.numRx + 1
            numRxBytes := s.numRxBytes + (env.read k).toNat }

/-- `struct rx_queue` of the source, restricted to the fields `pmd_rx_burst`
reads or writes (`mp` is the external buffer pool, modelled by `RxEnv`). -/
structure RxQueue where
  in_port : Nat
  fd : Int
  stats : PktStats
deriving Repr, DecidableEq

/-- `pmd_rx_burst` of the source: run the loop for at most `nb_pkts`
iterations, then update the queue counters once, after the loop:
`ipackets += num_rx`, `ibytes += num_rx_bytes`. Returns the updated queue
and the batch of frames delivered to the caller. -/
def pmd_rx_burst (env : RxEnv) (rxq : RxQueue) (nb_pkts : Nat) : RxQueue × List Frame :=
  let s := rxLoop env rxq.in_port 0 nb_pkts ⟨[], 0, 0, 0⟩
  ({ rxq with
      stats := { rxq.stats with
        ipackets := rxq.stats.ipackets + s.numRx
        ibytes := rxq.stats.ibytes + s.numRxBytes } },
    s.frames)

/-- Outcome of the multiqueue-capability branch of `tun_alloc`
(lines 143-154 of the source): abort the creation attempt, or request the
channel with the single-queue flag, or request it with the multiqueue flag. -/
inductive TunMode where
  | fail
  | singleQueue
  | multiQueue
deriving Repr, DecidableEq

/-- The capability decision of `tun_alloc`, translated branch for branch.
`mq` models `features & IFF_MULTI_QUEUE`, `oq` models
`features & IFF_ONE_QUEUE` (as queried by `TUNGETFEATURES`); `maxQueues`
is `RTE_PMD_TAP_MAX_QUEUES`, kept as a parameter because the source compares
against the macro in both branches.  The source:
`if (!(features & IFF_MULTI_QUEUE) && (RTE_PMD_TAP_MAX_QUEUES > 1)) goto
error; else if ((features & IFF_ONE_QUEUE) && (RTE_PMD_TAP_MAX_QUEUES == 1))
{single}; else {multi}`. -/
def tunQueueMode (mq oq : Bool) (maxQueues : Nat) : TunMode :=
  if ¬mq ∧ 1 < maxQueues then .fail
  else if oq ∧ maxQueues = 1 then .singleQueue
  else .multiQueue

/-- The queue-mode policy as the spec words it (§4.1), for comparison with
`tunQueueMode`: "if the backend supports multiqueue and the device's maximum
queue count > 1, request multiqueue mode; else if the backend restricts to one
queue and the device's maximum is exactly 1, request single-queue mode; any
other combination is a capability mismatch and fails immediately". -/
def specQueueMode (mq oq : Bool) (maxQueues : Nat) : TunMode :=
  if mq ∧ 1 < maxQueues then .multiQueue
  else if oq ∧ maxQueues = 1 then .singleQueue
  else .fail

/-- `struct pmd_internals` of the source, restricted to the fields the
lifecycle and stats operations touch: the queue count, the three descriptor
arrays (`fds`, `rxq[i].fd`, `txq[i].fd`), the per-queue counters, and the
device link status (`dev->data->dev_link.link_status`, stored alongside for
convenience).  Arrays are total functions on queue indices. -/
structure PmdInternals where
  nb_queues : Nat
  rxq_fd : Nat → Int
  txq_fd : Nat → Int
  fds : Nat → Int
  rxq_stats : Nat → PktStats
  txq_stats : Nat → PktStats
  link_up : Bool

/-- Pointwise update of a descriptor array. -/
def updFn (f : Nat → Int) (i : Nat) (v : Int) : Nat → Int :=
  fun j => if j = i then v else f j

/-- The world a lifecycle run threads through: the device internals plus an
audit of kernel descriptors — `opened` and `closed` list every fd handed out
by `open` and every fd passed to `close`, in order; `nextFd` is the next fd
the kernel will hand out. -/
structure TapWorld where
  dev : PmdInternals
  opened : List Int
  closed : List Int
  nextFd : Nat

/-- How one `tun_alloc` call resolves: success; failure of the initial
`open` (nothing to clean); or failure of a later stage (`TUNGETFEATURES`,
capability mismatch, `TUNSETIFF`, `F_SETFL`), after which the error path runs
`if (fd > 0) close(fd)`. -/
inductive TunOutcome where
  | ok
  | failOpen
  | failAfterOpen
deriving Repr, DecidableEq

/-- `tun_alloc` of the source, as a world transformer: on success the fresh
descriptor is opened and returned; on open failure nothing happens and `-1`
is returned; on a later failure the fresh descriptor is opened and then
closed by the error path (when positive, as the source guards `fd > 0`),
and `-1` is returned. -/
def tun_alloc (o : TunOutcome) (w : TapWorld) : TapWorld × Int :=
  match o with
  | .ok =>
      ({ w with opened := w.opened ++ [(w.nextFd : Int)], nextFd := w.nextFd + 1 },
        (w.nextFd : Int))
  | .failOpen => (w, -1)
  | .failAfterOpen =>
      ({ w with
          opened := w.opened ++ [(w.nextFd : Int)]
          closed := w.closed ++ (if 0 < (w.nextFd : Int) then [(w.nextFd : Int)] else [])
          nextFd := w.nextFd + 1 },
        -1)

/-- Install a descriptor into both halves of queue `qid`
(`rx->fd = fd; tx->fd = fd;` at the end of `tap_setup_queue`). -/
def installFds (w : TapWorld) (qid : Nat) (fd : Int) : TapWorld :=
  { w with dev := { w.dev with
      rxq_fd := updFn w.dev.rxq_fd qid fd
      txq_fd := updFn w.dev.txq_fd qid fd } }

/-- `tap_setup_queue` of the source: reuse the RX slot's descriptor if it is
valid, else the TX slot's, else open a new channel with `tun_alloc` (failure
returns `-1` without touching the slots); on success install the descriptor
into both slots and return it. -/
def tap_setup_queue (o : TunOutcome) (w : TapWorld) (qid : Nat) : TapWorld × Int :=
  if w.dev.rxq_fd qid < 0 then
    if w.dev.txq_fd qid < 0 then
      let r := tun_alloc o w
      if r.2 < 0 then (r.1, -1)
      else (installFds r.1 qid r.2, r.2)
    else (installFds w qid (w.dev.txq_fd qid), w.dev.txq_fd qid)
  else (installFds w qid (w.dev.rxq_fd qid), w.dev.rxq_fd qid)

/-- `tap_rx_queue_setup` of the source.  `mpOk` models the `!mp` null check
on the external buffer pool and `bufOk` the `buf_size < ETH_FRAME_LEN` check
(the pool itself is an external collaborator); both guards precede the queue
setup.  On success the descriptor is recorded in `fds[qid]` and `0` is
returned. -/
def tap_rx_queue_setup (o : TunOutcome) (mpOk bufOk : Bool) (w : TapWorld)
    (qid : Nat) : TapWorld × Int :=
  if w.dev.nb_queues ≤ qid ∨ mpOk = false then (w, -1)
  else if bufOk = false then (w, -12)
  else
    let r := tap_setup_queue o w qid
    if r.2 = -1 then (r.1, -1)
    else ({ r.1 with dev := { r.1.dev with fds := updFn r.1.dev.fds qid r.2 } }, 0)

/-- `tap_tx_queue_setup` of the source: bounds-check the queue id, run
`tap_setup_queue`, and return `0` on success.  Note the source records
nothing in `fds[]` on this path. -/
def tap_tx_queue_setup (o : TunOutcome) (w : TapWorld) (qid : Nat) :
    TapWorld × Int :=
  if w.dev.nb_queues ≤ qid then (w, -1)
  else
    let r := tap_setup_queue o w qid
    if r.2 = -1 then (r.1, -1)
    else (r.1, 0)

/-- The descriptors `tap_dev_stop` (and `rte_pmd_tap_remove`) pass to
`close`: `fds[i]` for every `i < nb_queues` with `fds[i] != -1`, in order. -/
def stopCloses (w : TapWorld) : List Int :=
  ((List.range w.dev.nb_queues).filter (fun i => w.dev.fds i ≠ -1)).map
    (fun i => w.dev.fds i)

/-- `tap_dev_stop` of the source: close every `fds[i] != -1` and force the
link down.  The source does not write to `fds`, `rxq[i].fd` or `txq[i].fd`
here — the slots keep their values. -/
def tap_dev_stop (w : TapWorld) : TapWorld :=
  { w with
    closed := w.closed ++ stopCloses w
    dev := { w.dev with link_up := false } }

/-- `tap_dev_start` of the source: force the link up. -/
def tap_dev_start (w : TapWorld) : TapWorld :=
  { w with dev := { w.dev with link_up := true } }

/-- `rte_pmd_tap_remove` of the source, restricted to its descriptor
effects: the same close loop as `tap_dev_stop` (the subsequent frees and the
port release do not touch descriptors). -/
def rte_pmd_tap_remove (w : TapWorld) : TapWorld :=
  { w with closed := w.closed ++ stopCloses w }

/-- `tap_rx_queue_release` of the source: close a positive RX descriptor and
reset the slot to `-1`. -/
def tap_rx_queue_release (w : TapWorld) (qid : Nat) : TapWorld :=
  if 0 < w.dev.rxq_fd qid then
    { w with
      closed := w.closed ++ [w.dev.rxq_fd qid]
      dev := { w.dev with rxq_fd := updFn w.dev.rxq_fd qid (-1) } }
  else w

/-- `tap_tx_queue_release` of the source: close a positive TX descriptor and
reset the slot to `-1`. -/
def tap_tx_queue_release (w : TapWorld) (qid : Nat) : TapWorld :=
  if 0 < w.dev.txq_fd qid then
    { w with
      closed := w.closed ++ [w.dev.txq_fd qid]
      dev := { w.dev with txq_fd := updFn w.dev.txq_fd qid (-1) } }
  else w

/-- The successful path of `eth_dev_tap_create`: the first channel is opened
(the kernel hands out `startFd`), every slot of the zero-filled internals is
preset to `-1`, and the fresh descriptor is placed in `rxq[0].fd`,
`txq[0].fd` and `fds[0]`; the link starts down (`pmd_link`).  The failing
paths abort creation and build no device, so reachable device states all
start here. -/
def eth_dev_tap_create (startFd : Nat) : TapWorld :=
  { dev :=
      { nb_queues := RTE_PMD_TAP_MAX_QUEUES
        rxq_fd := updFn (fun _ => -1) 0 (startFd : Int)
        txq_fd := updFn (fun _ => -1) 0 (startFd : Int)
        fds := updFn (fun _ => -1) 0 (startFd : Int)
        rxq_stats := fun _ => PktStats.zero
        txq_stats := fun _ => PktStats.zero
        link_up := false }
    opened := [(startFd : Int)]
    closed := []
    nextFd := startFd + 1 }

/-- The per-queue view `tap_stats_get` fills and the totals it computes: the
caller passes the struct in, and the loops overwrite entries `i < imax`
only, so entries past `imax` keep the caller's contents. -/
structure EthStats where
  q_ipackets : Nat → Nat
  q_ibytes : Nat → Nat
  q_opackets : Nat → Nat
  q_obytes : Nat → Nat
  q_errors : Nat → Nat
  ipackets : Nat
  ibytes : Nat
  opackets : Nat
  obytes : Nat
  oerrors : Nat

/-- `imax` of `tap_stats_get`: the smaller of the configured queue count and
the exposed stats-array capacity. -/
def statsImax (nb : Nat) : Nat :=
  if nb < RTE_ETHDEV_QUEUE_STAT_CNTRS then nb else RTE_ETHDEV_QUEUE_STAT_CNTRS

/-- `tap_stats_get` of the source: for `i < imax` copy each queue's RX
counters into `q_ipackets`/`q_ibytes` and TX counters into
`q_opackets`/`q_errors`/`q_obytes`, accumulating the five device totals from
the copied values. -/
def tap_stats_get (d : PmdInternals) (init : EthStats) : EthStats :=
  let imax := statsImax d.nb_queues
  { q_ipackets := fun i => if i < imax then (d.rxq_stats i).ipackets else init.q_ipackets i
    q_ibytes := fun i => if i < imax then (d.rxq_stats i).ibytes else init.q_ibytes i
    q_opackets := fun i => if i < imax then (d.txq_stats i).opackets else init.q_opackets i
    q_obytes := fun i => if i < imax then (d.txq_stats i).obytes else init.q_obytes i
    q_errors := fun i => if i < imax then (d.txq_stats i).errs else init.q_errors i
    ipackets := ((List.range imax).map (fun i => (d.rxq_stats i).ipackets)).sum
    ibytes := ((List.range imax).map (fun i => (d.rxq_stats i).ibytes)).sum
    opackets := ((List.range imax).map (fun i => (d.txq_stats i).opackets)).sum
    obytes := ((List.range imax).map (fun i => (d.txq_stats i).obytes)).sum
    oerrors := ((List.range imax).map (fun i => (d.txq_stats i).errs)).sum }

/-- `tap_stats_reset` of the source: for every `i < nb_queues` zero the RX
counters `ipackets`/`ibytes` and the TX counters `opackets`/`errs`/`obytes`;
nothing else changes. -/
def tap_stats_reset (d : PmdInternals) : PmdInternals :=
  { d with
    rxq_stats := fun i =>
      if i < d.nb_queues then
        { d.rxq_stats i with ipackets := 0, ibytes := 0 }
      else d.rxq_stats i
    txq_stats := fun i =>
      if i < d.nb_queues then
        { d.txq_stats i with opackets := 0, errs := 0, obytes := 0 }
      else d.txq_stats i }

/-! ## Claims -/

/-- C1.  The claim states that after the first `tap_dev_stop` every queue
descriptor slot already holds the unassigned sentinel `-1`, so a second stop
performs no close calls.  The code contradicts this: `tap_dev_stop` closes
`fds[i]` but never resets the slot, so on a freshly created device (first
channel fd 3 in slot 0) the slot still holds `3` after the first stop and the
second stop passes `3` to `close` again — a double close of a stale
descriptor. -/
theorem tap_dev_stop_recloses_stale_fd_cex :
    (tap_dev_stop (eth_dev_tap_create 3)).dev.fds 0 = 3 ∧
    stopCloses (tap_dev_stop (eth_dev_tap_create 3)) = [3] ∧
    (tap_dev_stop (tap_dev_stop (eth_dev_tap_create 3))).closed = [3, 3] := by
  decide

/-- C3.  The claim states that after stop (and remove) every descriptor
opened during creation or by queue setup is closed, in particular one
installed only by TX-queue setup.  The code contradicts this: on a freshly
created device (fd 3 at queue 0), a TX-first setup of queue 1 opens fd 4 and
installs it in `rxq[1].fd`/`txq[1].fd` but records nothing in `fds[1]`, and
the stop/remove close loop walks only `fds[]` — fd 4 is opened, the setup
reports success, and neither stop nor remove ever closes it. -/
theorem tap_stop_leaks_tx_only_fd_cex :
    (tap_tx_queue_setup .ok (eth_dev_tap_create 3) 1).2 = 0 ∧
    (4 : Int) ∈ (tap_tx_queue_setup .ok (eth_dev_tap_create 3) 1).1.opened ∧
    (4 : Int) ∉
      (tap_dev_stop (tap_tx_queue_setup .ok (eth_dev_tap_create 3) 1).1).closed ∧
    (4 : Int) ∉
      (rte_pmd_tap_remove
        (tap_tx_queue_setup .ok (eth_dev_tap_create 3) 1).1).closed := by
  decide

/-- C2, counterexample.  With a backend advertising neither multiqueue nor
the one-queue restriction and a maximum queue count of exactly 1, the claim
demands an immediate capability-mismatch failure, but the capability branch
of `tun_alloc` falls through to its final `else` and requests multiqueue
mode. -/
theorem tunQueueMode_policy_cex :
    tunQueueMode false false 1 = TunMode.multiQueue ∧
    specQueueMode false false 1 = TunMode.fail := by
  decide

/-- C2, amended.  The capability policy `tun_alloc` actually implements:
creation fails exactly when the backend lacks multiqueue support and the
maximum queue count exceeds 1; single-queue mode is requested exactly when
the backend restricts to one queue and the maximum is exactly 1; every
remaining combination requests multiqueue mode — including when the maximum
is 1 and the backend advertises no multiqueue support.  There is still no
retry and no degraded fallback. -/
theorem tunQueueMode_characterization (mq oq : Bool) (maxQueues : Nat) :
    (tunQueueMode mq oq maxQueues = TunMode.fail ↔
      mq = false ∧ 1 < maxQueues) ∧
    (tunQueueMode mq oq maxQueues = TunMode.singleQueue ↔
      oq = true ∧ maxQueues = 1) ∧
    (tunQueueMode mq oq maxQueues = TunMode.multiQueue ↔
      (mq = true ∨ maxQueues ≤ 1) ∧ ¬(oq = true ∧ maxQueues = 1)) := by
  unfold tunQueueMode
  cases mq <;> cases oq <;> split_ifs <;> simp_all <;> omega

/-- Each loop iteration sends at most one frame. -/
lemma txLoop_numTx_le (env : TxEnv) (bufs : List Mbuf) :
    ∀ (fuel i : Nat) (s : TxState),
      (txLoop env bufs i fuel s).numTx ≤ s.numTx + fuel := by
  intro fuel
  induction fuel with
  | zero => intro i s; simp [txLoop]
  | succ f ih =>
    intro i s
    simp only [txLoop]
    split_ifs with h1 h2 h3
    · simp
    · simp
    · refine le_trans (ih (i + 1) _) ?_
      show s.numTx + 1 + f ≤ s.numTx + (f + 1)
      omega
    · refine le_trans (ih (i + 1) _) ?_
      show s.numTx + f ≤ s.numTx + (f + 1)
      omega

/-- The loop frees exactly the mbufs it sends: if the freed list so far is
`[0, …, numTx-1]`, it stays that way. -/
lemma txLoop_freed_range (env : TxEnv) (bufs : List Mbuf) :
    ∀ (fuel i : Nat) (s : TxState), s.freed = List.range s.numTx →
      (txLoop env bufs i fuel s).freed =
        List.range (txLoop env bufs i fuel s).numTx := by
  intro fuel
  induction fuel with
  | zero => intro i s h; simpa [txLoop] using h
  | succ f ih =>
    intro i s h
    simp only [txLoop]
    split_ifs with h1 h2 h3
    · simpa using h
    · simpa using h
    · exact ih (i + 1) _ (by simp [h, List.range_succ])
    · exact ih (i + 1) _ (by simpa using h)

/-- A non-positive poll result terminates the loop at once: if the polls at
offsets `0, …, j-1` from `i` are positive, the poll at offset `j` is
non-positive, and every write the loop can issue succeeds, then the loop
issues exactly `j + 1` further polls. -/
lemma txLoop_polls_of_first_nonpositive (env : TxEnv) (bufs : List Mbuf) :
    ∀ (j fuel i : Nat) (s : TxState), j < fuel →
      (∀ k, k < j → 0 < (env.poll (i + k)).1) →
      (env.poll (i + j)).1 ≤ 0 →
      (∀ k, k < s.numTx + fuel → 0 < env.write k) →
      (txLoop env bufs i fuel s).polls = s.polls + (j + 1) := by
  intro j
  induction j with
  | zero =>
    intro fuel i s hj hpos hstop hw
    match fuel, hj with
    | f + 1, _ =>
      simp only [txLoop]
      rw [if_pos (by simpa using hstop)]
  | succ j ih =>
    intro fuel i s hj hpos hstop hw
    match fuel, hj with
    | f + 1, hj =>
      have hp0 : 0 < (env.poll i).1 := by simpa using hpos 0 (Nat.succ_pos j)
      simp only [txLoop]
      rw [if_neg (by omega)]
      have hshift : ∀ k, k < j → 0 < (env.poll (i + 1 + k)).1 := by
        intro k hk
        have := hpos (k + 1) (by omega)
        have harith : i + (k + 1) = i + 1 + k := by omega
        rwa [harith] at this
      have hstop1 : (env.poll (i + 1 + j)).1 ≤ 0 := by
        have harith : i + (j + 1) = i + 1 + j := by omega
        rwa [harith] at hstop
      by_cases hrev : (env.poll i).2
      · rw [if_pos hrev]
        have hwpos : 0 < env.write s.numTx := hw s.numTx (by omega)
        rw [if_neg (by omega)]
        rw [ih f (i + 1) _ (by omega) hshift hstop1
          (by intro k hk
              have hk2 : k < s.numTx + 1 + f := hk
              exact hw k (by omega))]
        show s.polls + 1 + (j + 1) = s.polls + (j + 1 + 1)
        omega
      · rw [if_neg hrev]
        rw [ih f (i + 1) _ (by omega) hshift hstop1
          (by intro k hk
              have hk2 : k < s.numTx + f := hk
              exact hw k (by omega))]
        show s.polls + 1 + (j + 1) = s.polls + (j + 1 + 1)
        omega

/-- A TX environment where every poll reports write-ready and every write
returns 1 byte. -/
def txEnvAllOk : TxEnv := ⟨fun _ => (1, true), fun _ => 1⟩

/-- A TX environment whose first poll returns 1 with `POLLOUT` absent in
`revents` (e.g. only `POLLERR` set) and whose later polls report
write-ready; writes succeed in full. -/
def txEnvSkipThenReady : TxEnv :=
  ⟨fun k => if k = 0 then (1, false) else (1, true), fun _ => 100⟩

/-- A TX environment whose first poll reports write-ready and whose second
poll returns 0 (zero-timeout expiry: not ready). -/
def txEnvStopAt1 : TxEnv :=
  ⟨fun k => if k = 0 then (1, true) else (0, false), fun _ => 1⟩

/-- C4, counterexample.  On a two-frame batch where the first readiness
check returns positive with the write-ready flag absent, the claim demands
that the iteration stop immediately — one poll, no write, nothing sent.
Instead `pmd_tx_burst` falls through that iteration and continues: it issues
a second poll and a write, and sends one frame. -/
theorem pmd_tx_burst_continues_after_unready_poll_cex :
    (txEnvSkipThenReady.poll 0).1 = 1 ∧ (txEnvSkipThenReady.poll 0).2 = false ∧
    (pmd_tx_burst txEnvSkipThenReady PktStats.zero [⟨10⟩, ⟨20⟩]).polls = 2 ∧
    (pmd_tx_burst txEnvSkipThenReady PktStats.zero [⟨10⟩, ⟨20⟩]).writes = 1 ∧
    (pmd_tx_burst txEnvSkipThenReady PktStats.zero [⟨10⟩, ⟨20⟩]).sent = 1 := by
  decide

/-- C4, amended.  The per-frame iteration stops immediately at the first
readiness check that returns zero or a negative result (not ready, or the
check itself errors): if the checks before index `j` are positive and the
check at `j` is non-positive, exactly `j + 1` polls are issued.  A positive
check without the write-ready flag does not stop the loop — that iteration
merely skips its write, as the counterexample shows — so the amended bound
counts those iterations too.  (`hw` pins the writes to the success case so
that the stop observed is the poll's.) -/
theorem pmd_tx_burst_stops_at_first_nonpositive_poll (env : TxEnv)
    (stats : PktStats) (bufs : List Mbuf) (j : Nat)
    (hj : j < bufs.length)
    (hpos : ∀ k, k < j → 0 < (env.poll k).1)
    (hstop : (env.poll j).1 ≤ 0)
    (hw : ∀ k, k < bufs.length → 0 < env.write k) :
    (pmd_tx_burst env stats bufs).polls = j + 1 := by
  unfold pmd_tx_burst
  rw [if_neg (by omega)]
  have h := txLoop_polls_of_first_nonpositive env bufs j bufs.length 0
    ⟨0, 0, [], 0, 0⟩ hj
    (by intro k hk; simpa using hpos k hk)
    (by simpa using hstop)
    (by intro k hk
        have hk2 : k < 0 + bufs.length := hk
        exact hw k (by omega))
  simpa using h

/-- C4 witness: on a two-frame batch the first poll is positive and the
second returns 0, so exactly two polls are issued. -/
theorem pmd_tx_burst_stops_at_first_nonpositive_poll_witness :
    1 < ([(⟨5⟩ : Mbuf), ⟨6⟩]).length ∧
    (∀ k, k < 1 → 0 < (txEnvStopAt1.poll k).1) ∧
    (txEnvStopAt1.poll 1).1 ≤ 0 ∧
    (∀ k, k < ([(⟨5⟩ : Mbuf), ⟨6⟩]).length → 0 < txEnvStopAt1.write k) ∧
    (pmd_tx_burst txEnvStopAt1 PktStats.zero [⟨5⟩, ⟨6⟩]).polls = 1 + 1 :=
  ⟨by decide, by decide, by decide, by decide,
    pmd_tx_burst_stops_at_first_nonpositive_poll txEnvStopAt1 PktStats.zero
      [⟨5⟩, ⟨6⟩] 1 (by decide) (by decide) (by decide) (by decide)⟩

/-- C5.  On a non-empty batch, `pmd_tx_burst` returns `sent ≤ nb_pkts` and
adds exactly `nb_pkts - sent` to the queue's error counter, whatever the
reason each unsent frame was not sent (backpressure or write failure). -/
theorem pmd_tx_burst_sent_le_and_errs (env : TxEnv) (stats : PktStats)
    (bufs : List Mbuf) (h : bufs ≠ []) :
    (pmd_tx_burst env stats bufs).sent ≤ bufs.length ∧
    (pmd_tx_burst env stats bufs).stats.errs =
      stats.errs + (bufs.length - (pmd_tx_burst env stats bufs).sent) := by
  have hlen : ¬bufs.length = 0 := by simpa using h
  unfold pmd_tx_burst
  rw [if_neg hlen]
  refine ⟨?_, rfl⟩
  have h2 := txLoop_numTx_le env bufs bufs.length 0 ⟨0, 0, [], 0, 0⟩
  simpa using h2

/-- C5 witness: a singleton batch through the always-ready environment. -/
theorem pmd_tx_burst_sent_le_and_errs_witness :
    ([(⟨5⟩ : Mbuf)] ≠ []) ∧
    ((pmd_tx_burst txEnvAllOk PktStats.zero [⟨5⟩]).sent ≤ ([(⟨5⟩ : Mbuf)]).length ∧
      (pmd_tx_burst txEnvAllOk PktStats.zero [⟨5⟩]).stats.errs =
        PktStats.zero.errs +
          (([(⟨5⟩ : Mbuf)]).length -
            (pmd_tx_burst txEnvAllOk PktStats.zero [⟨5⟩]).sent)) :=
  ⟨by decide, pmd_tx_burst_sent_le_and_errs txEnvAllOk PktStats.zero [⟨5⟩] (by decide)⟩

/-- C6.  `pmd_tx_burst` frees exactly the frames at index `< sent`, each
once, in order — its freed-index list is `[0, …, sent-1]`.  In particular
the frame whose write attempt returned zero or fewer bytes (index `sent`)
is not freed, and no frame at index `≥ sent` is touched: the input batch is
a value the engine never mutates, so unsent frames stay with the caller in
their original order. -/
theorem pmd_tx_burst_frees_exactly_sent (env : TxEnv) (stats : PktStats)
    (bufs : List Mbuf) :
    (pmd_tx_burst env stats bufs).freed =
      List.range (pmd_tx_burst env stats bufs).sent := by
  unfold pmd_tx_burst
  by_cases h : bufs.length = 0
  · rw [if_pos h]
    rfl
  · rw [if_neg h]
    exact txLoop_freed_range env bufs bufs.length 0 ⟨0, 0, [], 0, 0⟩ rfl

/-- C10.  A write that returns any positive count `w` — here strictly
smaller than the frame's declared length — still counts the frame as fully
sent: the packet counter gains 1 and the byte counter gains the frame's
whole `pkt_len`, not `w`. -/
theorem pmd_tx_burst_partial_write_counts_full (env : TxEnv)
    (stats : PktStats) (m : Mbuf)
    (hp : 0 < (env.poll 0).1) (hr : (env.poll 0).2 = true)
    (hwpos : 0 < env.write 0) (hlt : env.write 0 < (m.pkt_len : Int)) :
    (pmd_tx_burst env stats [m]).sent = 1 ∧
    (pmd_tx_burst env stats [m]).stats.opackets = stats.opackets + 1 ∧
    (pmd_tx_burst env stats [m]).stats.obytes = stats.obytes + m.pkt_len ∧
    (pmd_tx_burst env stats [m]).stats.errs = stats.errs := by
  have hstep : txLoop env [m] 0 1 ⟨0, 0, [], 0, 0⟩ = ⟨1, m.pkt_len, [0], 1, 1⟩ := by
    simp only [txLoop]
    rw [if_neg (by omega), if_pos hr, if_neg (by omega)]
    simp [txLoop]
  unfold pmd_tx_burst
  rw [if_neg (by simp)]
  simp only [List.length_cons, List.length_nil, Nat.zero_add, hstep]
  simp

/-- The RX loop keeps `num_rx` equal to the number of accumulated frames and
`num_rx_bytes` equal to the sum of their lengths, and adds at most one frame
per remaining iteration. -/
lemma rxLoop_counts (env : RxEnv) (port : Nat) :
    ∀ (fuel k : Nat) (s : RxState),
      s.numRx = s.frames.length →
      s.numRxBytes = (s.frames.map Frame.pkt_len).sum →
      (rxLoop env port k fuel s).numRx = (rxLoop env port k fuel s).frames.length ∧
      (rxLoop env port k fuel s).numRxBytes =
        ((rxLoop env port k fuel s).frames.map Frame.pkt_len).sum ∧
      (rxLoop env port k fuel s).frames.length ≤ s.frames.length + fuel := by
  intro fuel
  induction fuel with
  | zero =>
    intro k s h1 h2
    simp only [rxLoop]
    exact ⟨h1, h2, by omega⟩
  | succ f ih =>
    intro k s h1 h2
    simp only [rxLoop]
    cases halloc : env.alloc k with
    | none =>
      refine ⟨h1, h2, ?_⟩
      show s.frames.length ≤ s.frames.length + (f + 1)
      omega
    | some tailroom =>
      by_cases hr : env.read k ≤ 0
      · rw [if_pos hr]
        refine ⟨h1, h2, ?_⟩
        show s.frames.length ≤ s.frames.length + (f + 1)
        omega
      · rw [if_neg hr]
        obtain ⟨ih1, ih2, ih3⟩ := ih (k + 1)
          { s with
            frames := s.frames ++ [⟨(env.read k).toNat, (env.read k).toNat, port⟩]
            numRx := s.numRx + 1
            numRxBytes := s.numRxBytes + (env.read k).toNat }
          (by simp [h1]) (by simp [h2])
        refine ⟨ih1, ih2, ?_⟩
        refine le_trans ih3 ?_
        show (s.frames ++ [(⟨(env.read k).toNat, (env.read k).toNat, port⟩ : Frame)]).length + f ≤
          s.frames.length + (f + 1)
        simp
        omega

/-- C7.  `pmd_rx_burst` returns between 0 and `nb_pkts` frames (zero is a
valid, non-error outcome — the return is total), and the one post-loop
counter update adds exactly the number of returned frames to `ipackets` and
exactly the sum of their lengths to `ibytes`. -/
theorem pmd_rx_burst_bounds_and_counters (env : RxEnv) (rxq : RxQueue) (n : Nat) :
    (pmd_rx_burst env rxq n).2.length ≤ n ∧
    (pmd_rx_burst env rxq n).1.stats.ipackets =
      rxq.stats.ipackets + (pmd_rx_burst env rxq n).2.length ∧
    (pmd_rx_burst env rxq n).1.stats.ibytes =
      rxq.stats.ibytes + ((pmd_rx_burst env rxq n).2.map Frame.pkt_len).sum := by
  obtain ⟨h1, h2, h3⟩ := rxLoop_counts env rxq.in_port n 0 ⟨[], 0, 0, 0⟩ rfl rfl
  refine ⟨?_, ?_, ?_⟩
  · show (rxLoop env rxq.in_port 0 n ⟨[], 0, 0, 0⟩).frames.length ≤ n
    simpa using h3
  · show rxq.stats.ipackets + (rxLoop env rxq.in_port 0 n ⟨[], 0, 0, 0⟩).numRx =
      rxq.stats.ipackets + (rxLoop env rxq.in_port 0 n ⟨[], 0, 0, 0⟩).frames.length
    rw [h1]
  · show rxq.stats.ibytes + (rxLoop env rxq.in_port 0 n ⟨[], 0, 0, 0⟩).numRxBytes =
      rxq.stats.ibytes +
        ((rxLoop env rxq.in_port 0 n ⟨[], 0, 0, 0⟩).frames.map Frame.pkt_len).sum
    rw [h2]

/-- A natural number cast to `Int` is not negative. -/
lemma int_natCast_not_lt_zero (n : Nat) : ¬((n : Int) < 0) := by omega

/-- A natural number cast to `Int` is never the `-1` sentinel. -/
lemma int_natCast_ne_neg_one (n : Nat) : ((n : Int)) ≠ -1 := by omega

/-- C8.  Starting from a queue id whose RX and TX slots are both at the
unassigned sentinel, configuring the two halves in either order — RX setup
first then TX setup, or TX setup first then RX setup — succeeds, leaves
`rxq[qid].fd` and `txq[qid].fd` equal and valid (non-negative), and opens
exactly one kernel channel in total: the second half's setup reuses the
first's descriptor whatever its own channel-open oracle `o2` would say. -/
theorem queue_setup_shares_fd_both_orders (w : TapWorld) (qid : Nat)
    (o2 : TunOutcome)
    (h1 : qid < w.dev.nb_queues)
    (h2 : w.dev.rxq_fd qid = -1)
    (h3 : w.dev.txq_fd qid = -1) :
    ((tap_rx_queue_setup .ok true true w qid).2 = 0 ∧
     (tap_tx_queue_setup o2 (tap_rx_queue_setup .ok true true w qid).1 qid).2 = 0 ∧
     (tap_tx_queue_setup o2 (tap_rx_queue_setup .ok true true w qid).1 qid).1.dev.rxq_fd qid =
       (tap_tx_queue_setup o2 (tap_rx_queue_setup .ok true true w qid).1 qid).1.dev.txq_fd qid ∧
     0 ≤ (tap_tx_queue_setup o2 (tap_rx_queue_setup .ok true true w qid).1 qid).1.dev.rxq_fd qid ∧
     (tap_tx_queue_setup o2 (tap_rx_queue_setup .ok true true w qid).1 qid).1.opened.length =
       w.opened.length + 1) ∧
    ((tap_tx_queue_setup .ok w qid).2 = 0 ∧
     (tap_rx_queue_setup o2 true true (tap_tx_queue_setup .ok w qid).1 qid).2 = 0 ∧
     (tap_rx_queue_setup o2 true true (tap_tx_queue_setup .ok w qid).1 qid).1.dev.rxq_fd qid =
       (tap_rx_queue_setup o2 true true (tap_tx_queue_setup .ok w qid).1 qid).1.dev.txq_fd qid ∧
     0 ≤ (tap_rx_queue_setup o2 true true (tap_tx_queue_setup .ok w qid).1 qid).1.dev.rxq_fd qid ∧
     (tap_rx_queue_setup o2 true true (tap_tx_queue_setup .ok w qid).1 qid).1.opened.length =
       w.opened.length + 1) := by
  obtain ⟨⟨nb, rx, tx, fds, rs, ts, lu⟩, op, cl, nf⟩ := w
  have h1n : qid < nb := h1
  have h2n : rx qid = -1 := h2
  have h3n : tx qid = -1 := h3
  simp [tap_rx_queue_setup, tap_tx_queue_setup, tap_setup_queue, tun_alloc,
    installFds, updFn, Nat.not_le.mpr h1n, h2n, h3n,
    int_natCast_not_lt_zero, int_natCast_ne_neg_one]

/-- C8 witness: on a freshly created device (first channel fd 3 at queue 0),
queue id 1 has both slots unassigned; both setup orders share one fresh
descriptor. -/
theorem queue_setup_shares_fd_both_orders_witness :
    1 < (eth_dev_tap_create 3).dev.nb_queues ∧
    (eth_dev_tap_create 3).dev.rxq_fd 1 = -1 ∧
    (eth_dev_tap_create 3).dev.txq_fd 1 = -1 ∧
    (((tap_rx_queue_setup .ok true true (eth_dev_tap_create 3) 1).2 = 0 ∧
      (tap_tx_queue_setup .ok
        (tap_rx_queue_setup .ok true true (eth_dev_tap_create 3) 1).1 1).2 = 0 ∧
      (tap_tx_queue_setup .ok
        (tap_rx_queue_setup .ok true true (eth_dev_tap_create 3) 1).1 1).1.dev.rxq_fd 1 =
        (tap_tx_queue_setup .ok
          (tap_rx_queue_setup .ok true true (eth_dev_tap_create 3) 1).1 1).1.dev.txq_fd 1 ∧
      0 ≤ (tap_tx_queue_setup .ok
        (tap_rx_queue_setup .ok true true (eth_dev_tap_create 3) 1).1 1).1.dev.rxq_fd 1 ∧
      (tap_tx_queue_setup .ok
        (tap_rx_queue_setup .ok true true (eth_dev_tap_create 3) 1).1 1).1.opened.length =
        (eth_dev_tap_create 3).opened.length + 1) ∧
     ((tap_tx_queue_setup .ok (eth_dev_tap_create 3) 1).2 = 0 ∧
      (tap_rx_queue_setup .ok true true
        (tap_tx_queue_setup .ok (eth_dev_tap_create 3) 1).1 1).2 = 0 ∧
      (tap_rx_queue_setup .ok true true
        (tap_tx_queue_setup .ok (eth_dev_tap_create 3) 1).1 1).1.dev.rxq_fd 1 =
        (tap_rx_queue_setup .ok true true
          (tap_tx_queue_setup .ok (eth_dev_tap_create 3) 1).1 1).1.dev.txq_fd 1 ∧
      0 ≤ (tap_rx_queue_setup .ok true true
        (tap_tx_queue_setup .ok (eth_dev_tap_create 3) 1).1 1).1.dev.rxq_fd 1 ∧
      (tap_rx_queue_setup .ok true true
        (tap_tx_queue_setup .ok (eth_dev_tap_create 3) 1).1 1).1.opened.length =
        (eth_dev_tap_create 3).opened.length + 1)) :=
  ⟨by decide, by decide, by decide,
    queue_setup_shares_fd_both_orders (eth_dev_tap_create 3) 1 .ok
      (by decide) (by decide) (by decide)⟩

/-- `imax` never exceeds the configured queue count. -/
lemma statsImax_le (nb : Nat) : statsImax nb ≤ nb := by
  unfold statsImax
  split <;> omega

/-- Reset queue counters read back as zero for every configured queue. -/
lemma tap_stats_reset_fields (d : PmdInternals) (j : Nat) (hj : j < d.nb_queues) :
    ((tap_stats_reset d).rxq_stats j).ipackets = 0 ∧
    ((tap_stats_reset d).rxq_stats j).ibytes = 0 ∧
    ((tap_stats_reset d).txq_stats j).opackets = 0 ∧
    ((tap_stats_reset d).txq_stats j).obytes = 0 ∧
    ((tap_stats_reset d).txq_stats j).errs = 0 := by
  simp [tap_stats_reset, hj]

/-- Resetting does not change the queue count. -/
lemma tap_stats_reset_nb (d : PmdInternals) :
    (tap_stats_reset d).nb_queues = d.nb_queues := rfl

/-- C9.  `tap_stats_reset` followed by `tap_stats_get` yields zero in every
per-queue field the get exposes (`q_ipackets`, `q_ibytes`, `q_opackets`,
`q_obytes`, `q_errors` at each index below `imax`) and zero in every
device-level total. -/
theorem stats_reset_then_get_all_zero (d : PmdInternals) (init : EthStats)
    (i : Nat) (h : i < statsImax d.nb_queues) :
    (tap_stats_get (tap_stats_reset d) init).q_ipackets i = 0 ∧
    (tap_stats_get (tap_stats_reset d) init).q_ibytes i = 0 ∧
    (tap_stats_get (tap_stats_reset d) init).q_opackets i = 0 ∧
    (tap_stats_get (tap_stats_reset d) init).q_obytes i = 0 ∧
    (tap_stats_get (tap_stats_reset d) init).q_errors i = 0 ∧
    (tap_stats_get (tap_stats_reset d) init).ipackets = 0 ∧
    (tap_stats_get (tap_stats_reset d) init).ibytes = 0 ∧
    (tap_stats_get (tap_stats_reset d) init).opackets = 0 ∧
    (tap_stats_get (tap_stats_reset d) init).obytes = 0 ∧
    (tap_stats_get (tap_stats_reset d) init).oerrors = 0 := by
  have hle := statsImax_le d.nb_queues
  have hin : i < d.nb_queues := lt_of_lt_of_le h hle
  obtain ⟨z1, z2, z3, z4, z5⟩ := tap_stats_reset_fields d i hin
  simp only [tap_stats_get, tap_stats_reset_nb]
  refine ⟨?_, ?_, ?_, ?_, ?_, ?_, ?_, ?_, ?_, ?_⟩
  · rw [if_pos h]; exact z1
  · rw [if_pos h]; exact z2
  · rw [if_pos h]; exact z3
  · rw [if_pos h]; exact z4
  · rw [if_pos h]; exact z5
  · refine List.sum_eq_zero ?_
    intro x hx
    rcases List.mem_map.mp hx with ⟨j, hjmem, rfl⟩
    exact (tap_stats_reset_fields d j
      (lt_of_lt_of_le (List.mem_range.mp hjmem) hle)).1
  · refine List.sum_eq_zero ?_
    intro x hx
    rcases List.mem_map.mp hx with ⟨j, hjmem, rfl⟩
    exact (tap_stats_reset_fields d j
      (lt_of_lt_of_le (List.mem_range.mp hjmem) hle)).2.1
  · refine List.sum_eq_zero ?_
    intro x hx
    rcases List.mem_map.mp hx with ⟨j, hjmem, rfl⟩
    exact (tap_stats_reset_fields d j
      (lt_of_lt_of_le (List.mem_range.mp hjmem) hle)).2.2.1
  · refine List.sum_eq_zero ?_
    intro x hx
    rcases List.mem_map.mp hx with ⟨j, hjmem, rfl⟩
    exact (tap_stats_reset_fields d j
      (lt_of_lt_of_le (List.mem_range.mp hjmem) hle)).2.2.2.1
  · refine List.sum_eq_zero ?_
    intro x hx
    rcases List.mem_map.mp hx with ⟨j, hjmem, rfl⟩
    exact (tap_stats_reset_fields d j
      (lt_of_lt_of_le (List.mem_range.mp hjmem) hle)).2.2.2.2

/-- A device for the stats witness, with non-zero counters on every queue. -/
def pmdDevW : PmdInternals :=
  { nb_queues := RTE_PMD_TAP_MAX_QUEUES
    rxq_fd := fun _ => -1
    txq_fd := fun _ => -1
    fds := fun _ => -1
    rxq_stats := fun _ => ⟨1, 2, 3, 4, 5⟩
    txq_stats := fun _ => ⟨6, 7, 8, 9, 10⟩
    link_up := true }

/-- A caller-supplied stats struct with garbage in every field. -/
def ethStatsW : EthStats :=
  { q_ipackets := fun _ => 77
    q_ibytes := fun _ => 77
    q_opackets := fun _ => 77
    q_obytes := fun _ => 77
    q_errors := fun _ => 77
    ipackets := 77
    ibytes := 77
    opackets := 77
    obytes := 77
    oerrors := 77 }

/-- C9 witness: reset-then-get on a 16-queue device whose counters are all
non-zero beforehand, read at queue index 0. -/
theorem stats_reset_then_get_all_zero_witness :
    0 < statsImax pmdDevW.nb_queues ∧
    ((tap_stats_get (tap_stats_reset pmdDevW) ethStatsW).q_ipackets 0 = 0 ∧
     (tap_stats_get (tap_stats_reset pmdDevW) ethStatsW).q_ibytes 0 = 0 ∧
     (tap_stats_get (tap_stats_reset pmdDevW) ethStatsW).q_opackets 0 = 0 ∧
     (tap_stats_get (tap_stats_reset pmdDevW) ethStatsW).q_obytes 0 = 0 ∧
     (tap_stats_get (tap_stats_reset pmdDevW) ethStatsW).q_errors 0 = 0 ∧
     (tap_stats_get (tap_stats_reset pmdDevW) ethStatsW).ipackets = 0 ∧
     (tap_stats_get (tap_stats_reset pmdDevW) ethStatsW).ibytes = 0 ∧
     (tap_stats_get (tap_stats_reset pmdDevW) ethStatsW).opackets = 0 ∧
     (tap_stats_get (tap_stats_reset pmdDevW) ethStatsW).obytes = 0 ∧
     (tap_stats_get (tap_stats_reset pmdDevW) ethStatsW).oerrors = 0) :=
  ⟨by decide, stats_reset_then_get_all_zero pmdDevW ethStatsW 0 (by decide)⟩

/-- C10 witness: a 5-byte frame whose write reports only 1 byte written. -/
theorem pmd_tx_burst_partial_write_counts_full_witness :
    0 < (txEnvAllOk.poll 0).1 ∧ (txEnvAllOk.poll 0).2 = true ∧
    0 < txEnvAllOk.write 0 ∧ txEnvAllOk.write 0 < ((⟨5⟩ : Mbuf).pkt_len : Int) ∧
    ((pmd_tx_burst txEnvAllOk PktStats.zero [⟨5⟩]).sent = 1 ∧
      (pmd_tx_burst txEnvAllOk PktStats.zero [⟨5⟩]).stats.opackets =
        PktStats.zero.opackets + 1 ∧
      (pmd_tx_burst txEnvAllOk PktStats.zero [⟨5⟩]).stats.obytes =
        PktStats.zero.obytes + (⟨5⟩ : Mbuf).pkt_len ∧
      (pmd_tx_burst txEnvAllOk PktStats.zero [⟨5⟩]).stats.errs =
        PktStats.zero.errs) :=
  ⟨by decide, by decide, by decide, by decide,
    pmd_tx_burst_partial_write_counts_full txEnvAllOk PktStats.zero ⟨5⟩
      (by decide) (by decide) (by decide) (by decide)⟩
